import Mathlib

/-!
Verification of the recommendation lifecycle & backtest engine
(`backend/database/models.py`, `backend/services/backtest_service.py`,
`backend/services/scheduler_service.py`).

Prices and percentages are modelled as exact rationals; Python's
`round(x, 2)` is modelled as round-half-to-even at two decimals.
Timestamps are modelled as integer seconds; `datetime.date()` and
`timedelta.days` both floor-divide by 86400, matching Python semantics
for the subtraction of naive datetimes.
-/

namespace AIStock

/-- Round half to even (Python `round` tie-breaking) on rationals. -/
def roundHalfEven (x : ℚ) : ℤ :=
  let n : ℤ := ⌊x⌋
  let frac : ℚ := x - n
  if frac < 1/2 then n
  else if 1/2 < frac then n + 1
  else if n % 2 = 0 then n else n + 1

/-- Python `round(x, 2)` on exact rationals. -/
def round2 (x : ℚ) : ℚ := (roundHalfEven (x * 100) : ℚ) / 100

/-- Seconds in a day; timestamps are integer seconds. -/
def secPerDay : ℤ := 86400

/-- Calendar day of a timestamp (`func.date` / `datetime.date()`). -/
def dateOf (t : ℤ) : ℤ := t.fdiv secPerDay

/-- Whole days `(b - a).days` between two timestamps (Python `timedelta.days` floors). -/
def daysBetween (a b : ℤ) : ℤ := (b - a).fdiv secPerDay

/-- Stable insertion into a sorted list (used to model SQL ORDER BY;
structural so that concrete stores evaluate inside the kernel). -/
def insertSorted {α : Type} (le : α → α → Bool) (a : α) : List α → List α
  | [] => [a]
  | b :: l => if le a b then a :: b :: l else b :: insertSorted le a l

/-- Stable insertion sort by a boolean comparison. -/
def sortBy {α : Type} (le : α → α → Bool) : List α → List α
  | [] => []
  | a :: l => insertSorted le a (sortBy le l)

theorem insertSorted_perm {α : Type} (le : α → α → Bool) (a : α) (l : List α) :
    List.Perm (insertSorted le a l) (a :: l) := by
  induction l with
  | nil => simp [insertSorted]
  | cons b t ih =>
    unfold insertSorted
    split
    · exact List.Perm.refl _
    · exact (List.Perm.cons b ih).trans (List.Perm.swap a b t)

theorem sortBy_perm {α : Type} (le : α → α → Bool) (l : List α) :
    List.Perm (sortBy le l) l := by
  induction l with
  | nil => exact List.Perm.refl _
  | cons a t ih => exact (insertSorted_perm le a (sortBy le t)).trans (List.Perm.cons a ih)

theorem mem_sortBy {α : Type} {le : α → α → Bool} {x : α} {l : List α} :
    x ∈ sortBy le l ↔ x ∈ l := (sortBy_perm le l).mem_iff

theorem length_sortBy {α : Type} (le : α → α → Bool) (l : List α) :
    (sortBy le l).length = l.length := (sortBy_perm le l).length_eq

theorem insertSorted_pairwise {α : Type} {le : α → α → Bool}
    (htot : ∀ x y, le x y = true ∨ le y x = true)
    (htrans : ∀ x y z, le x y = true → le y z = true → le x z = true)
    (a : α) {l : List α}
    (h : l.Pairwise (fun x y => le x y = true)) :
    (insertSorted le a l).Pairwise (fun x y => le x y = true) := by
  induction l with
  | nil => simp [insertSorted]
  | cons b t ih =>
    rw [List.pairwise_cons] at h
    unfold insertSorted
    split
    · rename_i hab
      refine List.pairwise_cons.mpr ⟨?_, List.pairwise_cons.mpr h⟩
      intro x hx
      rcases List.mem_cons.mp hx with hx | hx
      · subst hx
        exact hab
      · exact htrans a b x hab (h.1 x hx)
    · rename_i hab
      have hba : le b a = true := by
        rcases htot a b with hc | hc
        · exact absurd hc hab
        · exact hc
      refine List.pairwise_cons.mpr ⟨?_, ih h.2⟩
      intro x hx
      rcases List.mem_cons.mp ((insertSorted_perm le a t).mem_iff.mp hx) with hx | hx
      · subst hx
        exact hba
      · exact h.1 x hx

theorem sortBy_pairwise {α : Type} {le : α → α → Bool}
    (htot : ∀ x y, le x y = true ∨ le y x = true)
    (htrans : ∀ x y z, le x y = true → le y z = true → le x z = true)
    (l : List α) : (sortBy le l).Pairwise (fun x y => le x y = true) := by
  induction l with
  | nil => simp [sortBy]
  | cons a t ih => exact insertSorted_pairwise htot htrans a ih

/-- One row of `recommendation_records` (`models.RecommendationRecord`). -/
structure RecommendationRecord where
  id : ℕ
  symbol : String
  name : String
  category : String
  recommendation : String
  ai_score : ℤ
  signal : String
  reason : String
  entry_price : ℚ
  entry_date : ℤ
  current_price : Option ℚ
  price_updated_at : Option ℤ
  status : String
  close_price : Option ℚ
  close_date : Option ℤ
  close_reason : Option String
  profit_percent : ℚ
  holding_days : ℤ
deriving DecidableEq, Repr

namespace RecommendationRecord

/-- Reference price chosen by `calculate_profit`:
close_price when closed, else current_price. -/
def refPrice (r : RecommendationRecord) : Option ℚ :=
  if r.status = "closed" then r.close_price else r.current_price

/-- Model of `RecommendationRecord.calculate_profit` (models.py 103-109).
Recomputes profit_percent only when entry_price > 0 and the reference
price is truthy (non-null and non-zero). -/
def calculate_profit (r : RecommendationRecord) : RecommendationRecord :=
  if 0 < r.entry_price then
    match r.refPrice with
    | some price =>
        if price ≠ 0 then
          { r with profit_percent := round2 ((price - r.entry_price) / r.entry_price * 100) }
        else r
    | none => r
  else r

/-- Model of `RecommendationRecord.calculate_holding_days` (models.py 111-116).
When closed the end date is close_date (always set on the close path);
otherwise it is `now`. -/
def calculate_holding_days (now : ℤ) (r : RecommendationRecord) : RecommendationRecord :=
  match (if r.status = "closed" then r.close_date else some now) with
  | some e => { r with holding_days := daysBetween r.entry_date e }
  | none => r

/-- The `current_price` entry of `to_dict`: `self.current_price or self.entry_price`. -/
def dictCurrentPrice (r : RecommendationRecord) : ℚ :=
  match r.current_price with
  | some p => if p = 0 then r.entry_price else p
  | none => r.entry_price

/-- The `profit_percent` entry of `to_dict`: `self.profit_percent or 0`. -/
def dictProfitPercent (r : RecommendationRecord) : ℚ := r.profit_percent

/-- The `holding_days` entry of `to_dict`: `self.holding_days or 0`. -/
def dictHoldingDays (r : RecommendationRecord) : ℤ := r.holding_days

end RecommendationRecord

/-- The persistent store: the `recommendation_records` table plus the
autoincrement counter. -/
structure DB where
  records : List RecommendationRecord
  next_id : ℕ
deriving DecidableEq

/-- The empty store. -/
def DB.empty : DB := ⟨[], 0⟩

/-- Dedup predicate of `create_recommendation` (backtest_service.py 60-70):
same symbol, same category, same calendar day of entry. -/
def sameDayDup (symbol category : String) (now : ℤ) (r : RecommendationRecord) : Bool :=
  r.symbol == symbol && r.category == category && dateOf r.entry_date == dateOf now

/-- Model of `BacktestService.create_recommendation` (backtest_service.py 29-106).
Returns the resulting record (pre-existing on a dedup hit) and the new store. -/
def create_recommendation (db : DB) (now : ℤ) (symbol name category recommendation : String)
    (entry_price : ℚ) (ai_score : ℤ) (signal reason : String) :
    RecommendationRecord × DB :=
  match db.records.find? (sameDayDup symbol category now) with
  | some existing => (existing, db)
  | none =>
      let record : RecommendationRecord :=
        { id := db.next_id
          symbol := symbol
          name := name
          category := category
          recommendation := recommendation
          ai_score := ai_score
          signal := signal
          reason := reason
          entry_price := entry_price
          entry_date := now
          current_price := some entry_price
          price_updated_at := some now
          status := "active"
          close_price := none
          close_date := none
          close_reason := none
          profit_percent := 0
          holding_days := 0 }
      (record, { records := db.records ++ [record], next_id := db.next_id + 1 })

/-- The per-record body of `update_prices` (backtest_service.py 306-313):
only active records whose symbol has a quote are touched. -/
def update_one (price_data : List (String × ℚ)) (now : ℤ) (r : RecommendationRecord) :
    RecommendationRecord :=
  if r.status = "active" then
    match price_data.lookup r.symbol with
    | some new_price =>
        RecommendationRecord.calculate_holding_days now
          (RecommendationRecord.calculate_profit
            { r with current_price := some new_price, price_updated_at := some now })
    | none => r
  else r

/-- Model of `BacktestService.update_prices` (backtest_service.py 284-324). Returns
the number of updated records and the new store. -/
def update_prices (db : DB) (price_data : List (String × ℚ)) (now : ℤ) : ℕ × DB :=
  let updated := (db.records.filter
    (fun r => r.status == "active" && (price_data.lookup r.symbol).isSome)).length
  (updated, { db with records := db.records.map (update_one price_data now) })

/-- The record mutation performed by a successful `close_position`
(backtest_service.py 356-362). -/
def closeRecord (close_price : ℚ) (close_reason : String) (now : ℤ)
    (r : RecommendationRecord) : RecommendationRecord :=
  RecommendationRecord.calculate_holding_days now
    (RecommendationRecord.calculate_profit
      { r with status := "closed", close_price := some close_price, close_date := some now,
               close_reason := some close_reason, current_price := some close_price })

/-- Model of `BacktestService.close_position` (backtest_service.py 326-375).
False on a missing id or an already-closed record (store untouched). -/
def close_position (db : DB) (record_id : ℕ) (close_price : ℚ) (close_reason : String)
    (now : ℤ) : Bool × DB :=
  match db.records.find? (fun r => r.id == record_id) with
  | none => (false, db)
  | some r =>
      if r.status = "closed" then (false, db)
      else
        let f := fun s =>
          if s.id == record_id then closeRecord close_price close_reason now s else s
        (true, { db with records := db.records.map f })

/-- Model of `BacktestService.get_active_symbols` (backtest_service.py 379-396). -/
def get_active_symbols (db : DB) : List String :=
  ((db.records.filter (fun r => r.status == "active")).map (fun r => r.symbol)).dedup

/-- Period lookup `{"7d": 7, "30d": 30, "90d": 90}.get(period, 30)`. -/
def periodDays (period : String) : ℤ :=
  if period = "7d" then 7 else if period = "30d" then 30 else
  if period = "90d" then 90 else 30

/-- Comparison used by `order_by(desc(entry_date))`. -/
def entryDesc (a b : RecommendationRecord) : Bool := b.entry_date ≤ a.entry_date

/-- The filter chain of `get_records` (backtest_service.py 164-178). -/
def get_records_query (db : DB) (now : ℤ) (period : String)
    (status category : Option String) : List RecommendationRecord :=
  let q := db.records
  let q := if period = "all" then q
           else q.filter (fun r => now - secPerDay * periodDays period ≤ r.entry_date)
  let q := match status with
           | some s => q.filter (fun r => r.status == s)
           | none => q
  match category with
  | some c => q.filter (fun r => r.category == c)
  | none => q

/-- The record page returned by `get_records` (backtest_service.py 184-189):
entry_date descending, offset `(page-1)*page_size`, limit `page_size`. -/
def get_records_page (db : DB) (now : ℤ) (period : String)
    (status category : Option String) (page page_size : ℕ) : List RecommendationRecord :=
  ((sortBy entryDesc (get_records_query db now period status category)).drop
    ((page - 1) * page_size)).take page_size

/-- Auto-close configuration held by `SchedulerService`
(scheduler_service.py 20-36). -/
structure StopConfig where
  stop_profit_percent : ℚ
  stop_loss_percent : ℚ
  max_holding_days : ℤ
  auto_close_enabled : Bool
deriving DecidableEq

/-- The defaults STOP_PROFIT_PERCENT = 15.0, STOP_LOSS_PERCENT = -8.0,
MAX_HOLDING_DAYS = 30, enabled. -/
def defaultStopConfig : StopConfig := ⟨15, -8, 30, true⟩

/-- The if/elif chain of `check_auto_close` (scheduler_service.py 100-121):
profit first, then loss, then expiry. -/
def evalCloseReason (cfg : StopConfig) (profit_percent : ℚ) (holding_days : ℤ) :
    Option String :=
  if cfg.stop_profit_percent ≤ profit_percent then some "profit"
  else if profit_percent ≤ cfg.stop_loss_percent then some "loss"
  else if cfg.max_holding_days ≤ holding_days then some "expired"
  else none

/-- One entry of the list returned by `check_auto_close`. -/
structure ClosedInfo where
  id : ℕ
  symbol : String
  profit_percent : ℚ
  reason : String
deriving DecidableEq

/-- One loop iteration of `check_auto_close` (scheduler_service.py 93-140):
evaluate the snapshot row, attempt the close at the row's reported current
price, keep going whether or not the close succeeded. -/
def sweepStep (cfg : StopConfig) (now : ℤ) (st : List ClosedInfo × DB)
    (r : RecommendationRecord) : List ClosedInfo × DB :=
  match evalCloseReason cfg r.dictProfitPercent r.dictHoldingDays with
  | some reason =>
      let res := close_position st.2 r.id r.dictCurrentPrice reason now
      (if res.1 then st.1 ++ [⟨r.id, r.symbol, r.dictProfitPercent, reason⟩] else st.1, res.2)
  | none => st

/-- The snapshot `check_auto_close` iterates over (scheduler_service.py 86):
`get_records(period="all", status="active", page_size=1000)`, i.e. the
first page of at most 1000 active records. -/
def sweepSnapshot (db : DB) (now : ℤ) : List RecommendationRecord :=
  get_records_page db now "all" (some "active") none 1 1000

/-- Model of `SchedulerService.check_auto_close` (scheduler_service.py 70-149). -/
def check_auto_close (cfg : StopConfig) (db : DB) (now : ℤ) : List ClosedInfo × DB :=
  if cfg.auto_close_enabled then (sweepSnapshot db now).foldl (sweepStep cfg now) ([], db)
  else ([], db)

/-- The quote fan-out of `update_stock_prices` (scheduler_service.py 169-179):
one provider call per active symbol; failures and non-positive prices are
dropped. `quotes` is the Market Data Provider (`none` = fetch failure). -/
def cyclePriceData (db : DB) (quotes : String → Option ℚ) : List (String × ℚ) :=
  (get_active_symbols db).filterMap (fun s =>
    match quotes s with
    | some p => if 0 < p then some (s, p) else none
    | none => none)

/-- Model of `SchedulerService.update_stock_prices` (scheduler_service.py 151-194).
The second component counts how many times the auto-close sweep was
invoked during the cycle. -/
def update_stock_prices (cfg : StopConfig) (db : DB) (quotes : String → Option ℚ)
    (now : ℤ) : DB × ℕ :=
  let active_symbols := get_active_symbols db
  if active_symbols.isEmpty then (db, 0)
  else
    let price_data := cyclePriceData db quotes
    if price_data.isEmpty then (db, 0)
    else
      let db1 := (update_prices db price_data now).2
      let db2 := (check_auto_close cfg db1 now).2
      (db2, 1)

/-- Profits of the records entered on calendar day `d`
(the `daily_data[date_str]["returns"]` bucket, backtest_service.py 445-449). -/
def dayProfits (recs : List RecommendationRecord) (d : ℤ) : List ℚ :=
  (recs.filter (fun r => dateOf r.entry_date == d)).map (fun r => r.profit_percent)

/-- Mean profit of a day's bucket, 0 when the bucket is empty
(backtest_service.py 462). -/
def dayAvg (recs : List RecommendationRecord) (d : ℤ) : ℚ :=
  let ps := dayProfits recs d
  if ps.isEmpty then 0 else ps.sum / ps.length

/-- The sorted distinct entry days (`sorted(daily_data.keys())`). -/
def curveDates (recs : List RecommendationRecord) : List ℤ :=
  sortBy (fun a b => a ≤ b) ((recs.map (fun r => dateOf r.entry_date)).dedup)

/-- The accumulation loop of `get_performance_curve`
(backtest_service.py 457-468): per date emit
(date, round2 mean, round2 running-sum-of-unrounded-means, bucket size). -/
def curve_loop (recs : List RecommendationRecord) (cumulative : ℚ) :
    List ℤ → List (ℤ × ℚ × ℚ × ℕ)
  | [] => []
  | d :: ds =>
      let avg := dayAvg recs d
      (d, round2 avg, round2 (cumulative + avg), (dayProfits recs d).length) ::
        curve_loop recs (cumulative + avg) ds

/-- The four parallel arrays returned by `get_performance_curve`. -/
structure CurveOut where
  dates : List ℤ
  daily_returns : List ℚ
  cumulative_returns : List ℚ
  daily_count : List ℕ
deriving DecidableEq

/-- The record set `get_performance_curve` aggregates
(backtest_service.py 416-430): entry_date within the period window. -/
def curveRecs (db : DB) (now : ℤ) (period : String) : List RecommendationRecord :=
  let days : ℤ := if period = "all" then 365 else periodDays period
  db.records.filter (fun r => now - secPerDay * days ≤ r.entry_date)

/-- Model of `BacktestService.get_performance_curve` (backtest_service.py 398-488). -/
def get_performance_curve (db : DB) (now : ℤ) (period : String) : CurveOut :=
  let recs := curveRecs db now period
  let rows := curve_loop recs 0 (curveDates recs)
  { dates := rows.map (fun x => x.1)
    daily_returns := rows.map (fun x => x.2.1)
    cumulative_returns := rows.map (fun x => x.2.2.1)
    daily_count := rows.map (fun x => x.2.2.2) }

/-! Concrete sample data used by witnesses and counterexamples. -/

/-- A template record for building concrete stores. -/
def baseRec : RecommendationRecord :=
  { id := 0
    symbol := "600519"
    name := "Kweichow"
    category := "trend"
    recommendation := "buy"
    ai_score := 50
    signal := ""
    reason := ""
    entry_price := 100
    entry_date := 0
    current_price := some 100
    price_updated_at := some 0
    status := "active"
    close_price := none
    close_date := none
    close_reason := none
    profit_percent := 0
    holding_days := 0 }

/-- A record already in the terminal closed state. -/
def sampleClosed : RecommendationRecord :=
  { baseRec with id := 7, status := "closed", current_price := some 92,
                 close_price := some 92, close_date := some 86400,
                 close_reason := some "manual", profit_percent := -8, holding_days := 1 }

/-- A store holding just the closed record. -/
def sampleClosedDB : DB := ⟨[sampleClosed], 8⟩

/-! Frame lemmas for the two derived-field recomputations. -/

/-- Frame: `calculate_profit` writes only profit_percent. -/
theorem calculate_profit_frame (r : RecommendationRecord) :
    r.calculate_profit.id = r.id ∧
    r.calculate_profit.symbol = r.symbol ∧
    r.calculate_profit.status = r.status ∧
    r.calculate_profit.entry_price = r.entry_price ∧
    r.calculate_profit.entry_date = r.entry_date ∧
    r.calculate_profit.current_price = r.current_price ∧
    r.calculate_profit.close_price = r.close_price ∧
    r.calculate_profit.close_date = r.close_date ∧
    r.calculate_profit.close_reason = r.close_reason ∧
    r.calculate_profit.holding_days = r.holding_days := by
  unfold RecommendationRecord.calculate_profit
  repeat' split
  all_goals simp

/-- Frame: `calculate_holding_days` writes only holding_days. -/
theorem calculate_holding_days_frame (now : ℤ) (r : RecommendationRecord) :
    (r.calculate_holding_days now).id = r.id ∧
    (r.calculate_holding_days now).symbol = r.symbol ∧
    (r.calculate_holding_days now).status = r.status ∧
    (r.calculate_holding_days now).entry_price = r.entry_price ∧
    (r.calculate_holding_days now).entry_date = r.entry_date ∧
    (r.calculate_holding_days now).current_price = r.current_price ∧
    (r.calculate_holding_days now).close_price = r.close_price ∧
    (r.calculate_holding_days now).close_date = r.close_date ∧
    (r.calculate_holding_days now).close_reason = r.close_reason ∧
    (r.calculate_holding_days now).profit_percent = r.profit_percent := by
  unfold RecommendationRecord.calculate_holding_days
  repeat' split
  all_goals simp

/-- C1: once a record is closed, a price update leaves it untouched
(update_prices only mutates active records, so the closed record survives
verbatim in the store), and a second close on its id returns a
non-success `false` with the store unchanged. -/
theorem closed_record_terminal (db : DB) (price_data : List (String × ℚ))
    (now now2 : ℤ) (cp : ℚ) (rsn : String) (r : RecommendationRecord)
    (hmem : r ∈ db.records) (hclosed : r.status = "closed")
    (hfind : db.records.find? (fun s => s.id == r.id) = some r) :
    update_one price_data now r = r ∧
    r ∈ (update_prices db price_data now).2.records ∧
    close_position db r.id cp rsn now2 = (false, db) := by
  have h1 : update_one price_data now r = r := by
    unfold update_one
    rw [hclosed, if_neg (by decide)]
  refine ⟨h1, ?_, ?_⟩
  · unfold update_prices
    exact List.mem_map.mpr ⟨r, hmem, h1⟩
  · unfold close_position
    rw [hfind]
    simp [hclosed]

/-- Witness for C1 at a concrete closed record. -/
theorem closed_record_terminal_witness :
    sampleClosed ∈ sampleClosedDB.records ∧ sampleClosed.status = "closed" ∧
    update_one [("600519", (95 : ℚ))] 172800 sampleClosed = sampleClosed ∧
    sampleClosed ∈ (update_prices sampleClosedDB [("600519", 95)] 172800).2.records ∧
    close_position sampleClosedDB sampleClosed.id 95 "manual" 172800 =
      (false, sampleClosedDB) := by
  have h := closed_record_terminal sampleClosedDB [("600519", 95)] 172800 172800 95 "manual"
    sampleClosed (by decide) (by decide) (by decide)
  exact ⟨by decide, by decide, h.1, h.2.1, h.2.2⟩

/-- C5 counterexample: `create_recommendation` never validates entry_price.
A call with entry_price = 0 persists a record instead of failing. -/
theorem create_nonpositive_price_counterexample :
    (create_recommendation DB.empty 0 "000001" "PingAn" "value" "buy" 0 50 "" "").1.entry_price = 0 ∧
    (create_recommendation DB.empty 0 "000001" "PingAn" "value" "buy" 0 50 "" "").2.records.length = 1 := by
  decide

/-- C5 (amended): a create call with entry_price ≤ 0 is not rejected: absent a
same-day duplicate it inserts and persists the record like any other call
(there is no InvalidInput failure path in the code). -/
theorem create_nonpositive_price_persists (db : DB) (now : ℤ)
    (s n c rc : String) (ep : ℚ) (a : ℤ) (sg rs : String)
    (hep : ep ≤ 0)
    (hnew : db.records.find? (sameDayDup s c now) = none) :
    (create_recommendation db now s n c rc ep a sg rs).2.records =
      db.records ++ [(create_recommendation db now s n c rc ep a sg rs).1] ∧
    (create_recommendation db now s n c rc ep a sg rs).1.entry_price = ep := by
  unfold create_recommendation
  rw [hnew]
  exact ⟨rfl, rfl⟩

/-- Witness for the amended C5 at entry_price = 0 on the empty store. -/
theorem create_nonpositive_price_persists_witness :
    ((0 : ℚ) ≤ 0) ∧
    (create_recommendation DB.empty 0 "000001" "PingAn" "value" "buy" 0 50 "" "").2.records =
      DB.empty.records ++ [(create_recommendation DB.empty 0 "000001" "PingAn" "value" "buy" 0 50 "" "").1] ∧
    (create_recommendation DB.empty 0 "000001" "PingAn" "value" "buy" 0 50 "" "").1.entry_price = 0 := by
  have h := create_nonpositive_price_persists DB.empty 0 "000001" "PingAn" "value" "buy" 0 50 "" ""
    (by decide) (by decide)
  exact ⟨by decide, h.1, h.2⟩

/-- C9 counterexample: a freshly created record already carries
current_price = entry_price; it is not null until the first update. -/
theorem create_current_price_counterexample :
    (create_recommendation DB.empty 0 "600519" "Kweichow" "trend" "buy" 100 50 "" "").1.current_price = some 100 ∧
    (create_recommendation DB.empty 0 "600519" "Kweichow" "trend" "buy" 100 50 "" "").1.current_price ≠ none := by
  decide

/-- C9 (amended): creation initializes current_price to the entry price and
price_updated_at to the creation instant (never null for created records). -/
theorem create_fills_current_price (db : DB) (now : ℤ)
    (s n c rc : String) (ep : ℚ) (a : ℤ) (sg rs : String)
    (hnew : db.records.find? (sameDayDup s c now) = none) :
    (create_recommendation db now s n c rc ep a sg rs).1.current_price = some ep ∧
    (create_recommendation db now s n c rc ep a sg rs).1.price_updated_at = some now := by
  unfold create_recommendation
  rw [hnew]
  exact ⟨rfl, rfl⟩

/-- Witness for the amended C9 on the empty store. -/
theorem create_fills_current_price_witness :
    (create_recommendation DB.empty 0 "600519" "Kweichow" "trend" "buy" 100 50 "" "").1.current_price = some 100 ∧
    (create_recommendation DB.empty 0 "600519" "Kweichow" "trend" "buy" 100 50 "" "").1.price_updated_at = some 0 := by
  have h := create_fills_current_price DB.empty 0 "600519" "Kweichow" "trend" "buy" 100 50 "" ""
    (by decide)
  exact h

/-- C10: a successful close sets status/close_price/close_date/close_reason and
also overwrites current_price with the close price, so afterwards
current_price = close_price, and the closed record is what the store holds. -/
theorem close_overwrites_current_price (db : DB) (record_id : ℕ) (cp : ℚ) (rsn : String)
    (now : ℤ) (r : RecommendationRecord)
    (hfind : db.records.find? (fun s => s.id == record_id) = some r)
    (hopen : ¬ r.status = "closed") :
    (close_position db record_id cp rsn now).1 = true ∧
    (closeRecord cp rsn now r).status = "closed" ∧
    (closeRecord cp rsn now r).close_price = some cp ∧
    (closeRecord cp rsn now r).close_date = some now ∧
    (closeRecord cp rsn now r).close_reason = some rsn ∧
    (closeRecord cp rsn now r).current_price = some cp ∧
    (closeRecord cp rsn now r).current_price = (closeRecord cp rsn now r).close_price ∧
    closeRecord cp rsn now r ∈ (close_position db record_id cp rsn now).2.records := by
  have hmem : r ∈ db.records := List.mem_of_find?_eq_some hfind
  have hid : (r.id == record_id) = true := by simpa using List.find?_some hfind
  have hp := calculate_profit_frame
    { r with status := "closed", close_price := some cp, close_date := some now,
             close_reason := some rsn, current_price := some cp }
  have hd := calculate_holding_days_frame now (RecommendationRecord.calculate_profit
    { r with status := "closed", close_price := some cp, close_date := some now,
             close_reason := some rsn, current_price := some cp })
  have hstatus : (closeRecord cp rsn now r).status = "closed" :=
    (hd.2.2.1).trans hp.2.2.1
  have hclp : (closeRecord cp rsn now r).close_price = some cp :=
    (hd.2.2.2.2.2.2.1).trans hp.2.2.2.2.2.2.1
  have hcld : (closeRecord cp rsn now r).close_date = some now :=
    (hd.2.2.2.2.2.2.2.1).trans hp.2.2.2.2.2.2.2.1
  have hclr : (closeRecord cp rsn now r).close_reason = some rsn :=
    (hd.2.2.2.2.2.2.2.2.1).trans hp.2.2.2.2.2.2.2.2.1
  have hcur : (closeRecord cp rsn now r).current_price = some cp :=
    (hd.2.2.2.2.2.1).trans hp.2.2.2.2.2.1
  unfold close_position
  simp only [hfind]
  rw [if_neg hopen]
  refine ⟨rfl, hstatus, hclp, hcld, hclr, hcur, hcur.trans hclp.symm, ?_⟩
  exact List.mem_map.mpr ⟨r, hmem, by simp [hid]⟩

/-- Witness for C10: closing the concrete active base record at price 92. -/
theorem close_overwrites_current_price_witness :
    (close_position ⟨[baseRec], 1⟩ 0 92 "manual" 86400).1 = true ∧
    (closeRecord 92 "manual" 86400 baseRec).current_price = some 92 ∧
    (closeRecord 92 "manual" 86400 baseRec).current_price =
      (closeRecord 92 "manual" 86400 baseRec).close_price ∧
    closeRecord 92 "manual" 86400 baseRec ∈
      (close_position ⟨[baseRec], 1⟩ 0 92 "manual" 86400).2.records := by
  have h := close_overwrites_current_price ⟨[baseRec], 1⟩ 0 92 "manual" 86400 baseRec
    (by decide) (by decide)
  exact ⟨h.1, h.2.2.2.2.2.1, h.2.2.2.2.2.2.1, h.2.2.2.2.2.2.2⟩

/-- On an active record, `calculate_profit` with a truthy reference price
stores the rounded percentage gain over the entry price. -/
theorem calculate_profit_eq (r : RecommendationRecord) (p : ℚ)
    (hep : 0 < r.entry_price) (href : r.refPrice = some p) (hp : p ≠ 0) :
    r.calculate_profit.profit_percent = round2 ((p - r.entry_price) / r.entry_price * 100) := by
  unfold RecommendationRecord.calculate_profit
  rw [if_pos hep]
  simp only [href]
  simp [hp]

/-- A price update through `update_one` recomputes profit_percent from the
new quote when the quote is non-zero. -/
theorem update_one_profit (pd : List (String × ℚ)) (now : ℤ) (r : RecommendationRecord)
    (p : ℚ) (hact : r.status = "active") (hlook : pd.lookup r.symbol = some p)
    (hep : 0 < r.entry_price) (hp : p ≠ 0) :
    (update_one pd now r).profit_percent =
      round2 ((p - r.entry_price) / r.entry_price * 100) := by
  unfold update_one
  rw [hact, if_pos rfl]
  simp only [hlook]
  rw [(calculate_holding_days_frame now _).2.2.2.2.2.2.2.2.2]
  refine calculate_profit_eq _ p hep ?_ hp
  simp [RecommendationRecord.refPrice]

/-- A close through `closeRecord` recomputes profit_percent from the close
price when the close price is non-zero. -/
theorem closeRecord_profit (cp : ℚ) (rsn : String) (now : ℤ) (r : RecommendationRecord)
    (hep : 0 < r.entry_price) (hcp : cp ≠ 0) :
    (closeRecord cp rsn now r).profit_percent =
      round2 ((cp - r.entry_price) / r.entry_price * 100) := by
  unfold closeRecord
  rw [(calculate_holding_days_frame now _).2.2.2.2.2.2.2.2.2]
  refine calculate_profit_eq _ cp hep ?_ hcp
  unfold RecommendationRecord.refPrice
  rw [if_pos rfl]

/-- C2 (amended): after a price update with a non-zero quote, and after a close
with a non-zero close price, profit_percent equals
round((reference − entry) / entry × 100, 2) with the reference being the new
current price resp. the close price. (The code guard `if price:` skips the
recomputation when the reference price is zero, see the counterexample.) -/
theorem profit_formula_on_nonzero_reference (pd : List (String × ℚ)) (now : ℤ)
    (r : RecommendationRecord) (p cp : ℚ) (rsn : String)
    (hact : r.status = "active") (hlook : pd.lookup r.symbol = some p)
    (hep : 0 < r.entry_price) (hp : p ≠ 0) (hcp : cp ≠ 0) :
    (update_one pd now r).profit_percent =
      round2 ((p - r.entry_price) / r.entry_price * 100) ∧
    (closeRecord cp rsn now r).profit_percent =
      round2 ((cp - r.entry_price) / r.entry_price * 100) :=
  ⟨update_one_profit pd now r p hact hlook hep hp,
   closeRecord_profit cp rsn now r hep hcp⟩

unseal Rat.mul Rat.add Rat.sub Rat.inv in
/-- Witness for C2's amended form at the spec's own figures: entry 100 and
quote 115 give 15.00; entry 100 and close 92 give −8.00. -/
theorem profit_formula_on_nonzero_reference_witness :
    (update_one [("600519", 115)] 86400 baseRec).profit_percent = 15 ∧
    (closeRecord 92 "manual" 86400 baseRec).profit_percent = -8 := by
  have h := profit_formula_on_nonzero_reference [("600519", 115)] 86400 baseRec 115 92 "manual"
    (by decide) (by decide) (by decide) (by decide) (by decide)
  exact ⟨h.1.trans (by decide), h.2.trans (by decide)⟩

/-- A stale record: consistent profit 10 for current price 110 over entry 100. -/
def staleProfitRec : RecommendationRecord :=
  { baseRec with current_price := some 110, profit_percent := 10 }

unseal Rat.mul Rat.add Rat.sub Rat.inv in
/-- C2 counterexample: an update that delivers a zero price leaves
profit_percent at its previous value 10, while the claimed formula demands
round((0 − 100)/100 × 100, 2) = −100. -/
theorem profit_zero_price_counterexample :
    0 < staleProfitRec.entry_price ∧
    (update_one [("600519", 0)] 86400 staleProfitRec).status = "active" ∧
    (update_one [("600519", 0)] 86400 staleProfitRec).current_price = some 0 ∧
    (update_one [("600519", 0)] 86400 staleProfitRec).profit_percent = 10 ∧
    round2 ((0 - staleProfitRec.entry_price) / staleProfitRec.entry_price * 100) = -100 ∧
    (10 : ℚ) ≠ -100 := by
  decide

/-- C3: the auto-close rules are checked in strict priority order — stop-profit
first, then stop-loss, then max holding days — so exactly one reason (or none)
results from an evaluation, and a record past both the profit threshold and
the holding-day limit closes with reason "profit", never "expired". -/
theorem auto_close_priority_order (cfg : StopConfig) (p : ℚ) (d : ℤ) :
    (cfg.stop_profit_percent ≤ p → evalCloseReason cfg p d = some "profit") ∧
    (p < cfg.stop_profit_percent → p ≤ cfg.stop_loss_percent →
      evalCloseReason cfg p d = some "loss") ∧
    (p < cfg.stop_profit_percent → cfg.stop_loss_percent < p →
      cfg.max_holding_days ≤ d → evalCloseReason cfg p d = some "expired") ∧
    (p < cfg.stop_profit_percent → cfg.stop_loss_percent < p →
      d < cfg.max_holding_days → evalCloseReason cfg p d = none) := by
  unfold evalCloseReason
  refine ⟨fun h1 => by rw [if_pos h1],
          fun h1 h2 => by rw [if_neg (not_le.mpr h1), if_pos h2],
          fun h1 h2 h3 => by
            rw [if_neg (not_le.mpr h1), if_neg (not_le.mpr h2), if_pos h3],
          fun h1 h2 h3 => by
            rw [if_neg (not_le.mpr h1), if_neg (not_le.mpr h2), if_neg (not_le.mpr h3)]⟩

/-- An active record with profit 16% and 31 holding days: above both the
default stop-profit threshold and the default holding-day limit. -/
def prioRec : RecommendationRecord :=
  { baseRec with id := 3, current_price := some 116, profit_percent := 16,
                 holding_days := 31 }

/-- A store holding just that record. -/
def prioDB : DB := ⟨[prioRec], 4⟩

unseal Rat.mul Rat.add Rat.sub Rat.inv in
/-- Witness for C3 at the spec's figures (profit 16 ≥ 15 and days 31 ≥ 30):
the evaluation picks "profit", and a full sweep over the store closes the
record with close_reason "profit", not "expired". -/
theorem auto_close_priority_order_witness :
    evalCloseReason defaultStopConfig 16 31 = some "profit" ∧
    (check_auto_close defaultStopConfig prioDB 2678400).2.records.map
      (fun r => (r.status, r.close_reason)) = [("closed", some "profit")] ∧
    (check_auto_close defaultStopConfig prioDB 2678400).1.map
      (fun c => c.reason) = ["profit"] := by
  refine ⟨(auto_close_priority_order defaultStopConfig 16 31).1 (by decide), by decide, by decide⟩

/-- A `create_recommendation` call whose dedup probe hits returns the existing
record with the store untouched. -/
theorem create_dedup_hit (db : DB) (now : ℤ) (s n c rc : String) (ep : ℚ) (a : ℤ)
    (sg rs : String) (r : RecommendationRecord)
    (hfind : db.records.find? (sameDayDup s c now) = some r) :
    create_recommendation db now s n c rc ep a sg rs = (r, db) := by
  unfold create_recommendation
  rw [hfind]

/-- A `create_recommendation` call whose dedup probe misses appends exactly one
record carrying the requested symbol, category and entry date. -/
theorem create_inserts (db : DB) (now : ℤ) (s n c rc : String) (ep : ℚ) (a : ℤ)
    (sg rs : String)
    (hnew : db.records.find? (sameDayDup s c now) = none) :
    (create_recommendation db now s n c rc ep a sg rs).2.records =
      db.records ++ [(create_recommendation db now s n c rc ep a sg rs).1] ∧
    (create_recommendation db now s n c rc ep a sg rs).1.symbol = s ∧
    (create_recommendation db now s n c rc ep a sg rs).1.category = c ∧
    (create_recommendation db now s n c rc ep a sg rs).1.entry_date = now := by
  unfold create_recommendation
  rw [hnew]
  exact ⟨rfl, rfl, rfl, rfl⟩

/-- C4: two create calls with the same (symbol, category) on the same calendar
day: the first inserts, the second returns the first call's record with the
store unchanged — no duplicate row, no mutation. -/
theorem create_same_day_dedup_idempotent (db : DB) (now1 now2 : ℤ)
    (s c n1 n2 rc1 rc2 sg1 sg2 rs1 rs2 : String) (ep1 ep2 : ℚ) (a1 a2 : ℤ)
    (hday : dateOf now1 = dateOf now2)
    (hnew : db.records.find? (sameDayDup s c now1) = none) :
    create_recommendation (create_recommendation db now1 s n1 c rc1 ep1 a1 sg1 rs1).2
        now2 s n2 c rc2 ep2 a2 sg2 rs2 =
      ((create_recommendation db now1 s n1 c rc1 ep1 a1 sg1 rs1).1,
       (create_recommendation db now1 s n1 c rc1 ep1 a1 sg1 rs1).2) := by
  obtain ⟨hrec, hsym, hcat, hed⟩ := create_inserts db now1 s n1 c rc1 ep1 a1 sg1 rs1 hnew
  have hpredr : sameDayDup s c now2 (create_recommendation db now1 s n1 c rc1 ep1 a1 sg1 rs1).1 = true := by
    unfold sameDayDup
    rw [hsym, hcat, hed, hday]
    simp
  have hz : db.records.find? (sameDayDup s c now2) = none := by
    have hpq : sameDayDup s c now2 = sameDayDup s c now1 := by
      funext r
      unfold sameDayDup
      rw [hday]
    rw [hpq, hnew]
  have hnew2 : (create_recommendation db now1 s n1 c rc1 ep1 a1 sg1 rs1).2.records.find?
      (sameDayDup s c now2) =
      some (create_recommendation db now1 s n1 c rc1 ep1 a1 sg1 rs1).1 := by
    rw [hrec, List.find?_append, hz]
    simp [List.find?_cons_of_pos _ hpredr]
  exact create_dedup_hit _ now2 s n2 c rc2 ep2 a2 sg2 rs2 _ hnew2

/-- Witness for C4: two same-day creates for ("600519", "trend") on the empty
store; the second call returns the first record and the unchanged store. -/
theorem create_same_day_dedup_idempotent_witness :
    dateOf 1000 = dateOf 50000 ∧
    create_recommendation
        (create_recommendation DB.empty 1000 "600519" "Kweichow" "trend" "buy" 100 50 "" "").2
        50000 "600519" "K2" "trend" "hold" 105 60 "" "" =
      ((create_recommendation DB.empty 1000 "600519" "Kweichow" "trend" "buy" 100 50 "" "").1,
       (create_recommendation DB.empty 1000 "600519" "Kweichow" "trend" "buy" 100 50 "" "").2) := by
  have h := create_same_day_dedup_idempotent DB.empty 1000 50000 "600519" "trend"
    "Kweichow" "K2" "buy" "hold" "" "" "" "" 100 105 50 60 (by decide) (by decide)
  exact ⟨by decide, h⟩

/-- A store with a single active record. -/
def oneActiveDB : DB := ⟨[baseRec], 1⟩

/-- C7 counterexample: a cycle with active symbols but no valid quote skips
the auto-close sweep entirely (0 invocations), contradicting "the sweep is
invoked exactly once per cycle". -/
theorem sweep_skipped_on_no_quotes_counterexample :
    get_active_symbols oneActiveDB = ["600519"] ∧
    update_stock_prices defaultStopConfig oneActiveDB (fun _ => none) 0 =
      (oneActiveDB, 0) := by
  exact ⟨rfl, rfl⟩

/-- C7 (amended): with no active symbols the cycle is a no-op; with active
symbols but no valid quote the cycle leaves the store unchanged and never
invokes the sweep; otherwise all price updates land first and the sweep runs
exactly once, on the post-update store. -/
theorem cycle_no_op_and_single_sweep (cfg : StopConfig) (db : DB)
    (quotes : String → Option ℚ) (now : ℤ) :
    (get_active_symbols db = [] → update_stock_prices cfg db quotes now = (db, 0)) ∧
    (cyclePriceData db quotes = [] → update_stock_prices cfg db quotes now = (db, 0)) ∧
    (get_active_symbols db ≠ [] → cyclePriceData db quotes ≠ [] →
      update_stock_prices cfg db quotes now =
        ((check_auto_close cfg (update_prices db (cyclePriceData db quotes) now).2 now).2, 1)) := by
  refine ⟨?_, ?_, ?_⟩
  · intro h
    unfold update_stock_prices
    rw [h]
    rfl
  · intro h
    unfold update_stock_prices
    rw [h]
    by_cases ha : (get_active_symbols db).isEmpty
    · rw [if_pos ha]
    · rw [if_neg ha]
      rfl
  · intro h1 h2
    unfold update_stock_prices
    rw [if_neg (by simpa [List.isEmpty_iff] using h1),
        if_neg (by simpa [List.isEmpty_iff] using h2)]

/-- Witness for the amended C7: an empty store is a no-op, and a store with
one active symbol and a good quote runs the sweep exactly once. -/
theorem cycle_no_op_and_single_sweep_witness :
    update_stock_prices defaultStopConfig DB.empty (fun _ => some 120) 0 = (DB.empty, 0) ∧
    (update_stock_prices defaultStopConfig oneActiveDB (fun _ => some 120) 0).2 = 1 := by
  refine ⟨(cycle_no_op_and_single_sweep defaultStopConfig DB.empty (fun _ => some 120) 0).1 rfl, ?_⟩
  have h := (cycle_no_op_and_single_sweep defaultStopConfig oneActiveDB
    (fun _ => some 120) 0).2.2 (by decide) (by decide)
  rw [h]

/-- Closing never touches a record whose id differs from the target. -/
theorem close_position_preserves (db : DB) (record_id : ℕ) (cp : ℚ) (rsn : String)
    (now : ℤ) (s : RecommendationRecord)
    (hmem : s ∈ db.records) (hid : (s.id == record_id) = false) :
    s ∈ (close_position db record_id cp rsn now).2.records := by
  unfold close_position
  split
  · exact hmem
  · split
    · exact hmem
    · refine List.mem_map.mpr ⟨s, hmem, ?_⟩
      simp [hid]

/-- Dichotomy: `close_position` either fails leaving the store unchanged, or succeeds. -/
theorem close_position_cases (db : DB) (record_id : ℕ) (cp : ℚ) (rsn : String) (now : ℤ) :
    close_position db record_id cp rsn now = (false, db) ∨
    (close_position db record_id cp rsn now).1 = true := by
  unfold close_position
  split
  · left
    rfl
  · split
    · left
      rfl
    · right
      rfl

/-- A failing `close_position` returns the store unchanged. -/
theorem close_position_false (db : DB) (record_id : ℕ) (cp : ℚ) (rsn : String) (now : ℤ)
    (h : (close_position db record_id cp rsn now).1 = false) :
    close_position db record_id cp rsn now = (false, db) := by
  rcases close_position_cases db record_id cp rsn now with hc | hc
  · exact hc
  · rw [h] at hc
    exact absurd hc (by decide)

/-- One sweep iteration never touches a record whose id differs from the
iterated snapshot row's id. -/
theorem sweepStep_preserves (cfg : StopConfig) (now : ℤ) (st : List ClosedInfo × DB)
    (x s : RecommendationRecord)
    (hmem : s ∈ st.2.records) (hid : (s.id == x.id) = false) :
    s ∈ (sweepStep cfg now st x).2.records := by
  unfold sweepStep
  cases evalCloseReason cfg x.dictProfitPercent x.dictHoldingDays with
  | none => exact hmem
  | some rsn => exact close_position_preserves st.2 x.id x.dictCurrentPrice rsn now s hmem hid

/-- The sweep fold never touches a record whose id is absent from the snapshot. -/
theorem sweepFold_preserves (cfg : StopConfig) (now : ℤ) (l : List RecommendationRecord)
    (st : List ClosedInfo × DB) (s : RecommendationRecord)
    (hmem : s ∈ st.2.records) (hids : ∀ x ∈ l, (s.id == x.id) = false) :
    s ∈ (l.foldl (sweepStep cfg now) st).2.records := by
  induction l generalizing st with
  | nil => simpa using hmem
  | cons x t ih =>
    rw [List.foldl_cons]
    exact ih (sweepStep cfg now st x)
      (sweepStep_preserves cfg now st x s hmem (hids x (List.mem_cons_self x t)))
      (fun y hy => hids y (List.mem_cons_of_mem x hy))

/-- Builder for a large store: active records with 20% profit, all entered at
instant 0. -/
def mkBigRec (i : ℕ) : RecommendationRecord :=
  { baseRec with id := i, current_price := some 120, profit_percent := 20 }

/-- A store with 1001 active records, one more than the sweep's page size. -/
def bigDB : DB := ⟨(List.range 1001).map mkBigRec, 1001⟩

set_option maxRecDepth 100000 in
/-- C6 counterexample: with 1001 active records the sweep snapshot (a single
page of at most 1000) must omit an active record; the omitted record matches
the stop-profit rule yet is never evaluated and survives the whole sweep
unchanged and still active. -/
theorem sweep_page_limit_counterexample :
    ∃ r, r ∈ bigDB.records ∧ r.status = "active" ∧
      defaultStopConfig.stop_profit_percent ≤ r.dictProfitPercent ∧
      r ∉ sweepSnapshot bigDB 0 ∧
      r ∈ (check_auto_close defaultStopConfig bigDB 0).2.records := by
  have hquery : get_records_query bigDB 0 "all" (some "active") none = bigDB.records := by
    show bigDB.records.filter (fun r => r.status == "active") = bigDB.records
    exact List.filter_eq_self.mpr (fun r hr => by
      obtain ⟨i, _, rfl⟩ := List.mem_map.mp hr
      rfl)
  have hsub : ∀ x, x ∈ sweepSnapshot bigDB 0 → x ∈ bigDB.records := by
    intro x hx
    unfold sweepSnapshot get_records_page at hx
    have h1 := List.take_subset _ _ hx
    have h2 := List.drop_subset _ _ h1
    rw [mem_sortBy, hquery] at h2
    exact h2
  have hlen : (sweepSnapshot bigDB 0).length ≤ 1000 := by
    unfold sweepSnapshot get_records_page
    rw [List.length_take]
    exact min_le_left _ _
  have hbiglen : bigDB.records.length = 1001 := by
    show ((List.range 1001).map mkBigRec).length = 1001
    rw [List.length_map, List.length_range]
  have hinj : Function.Injective mkBigRec := fun i j h => congrArg RecommendationRecord.id h
  have hnodup : bigDB.records.Nodup := (List.nodup_range 1001).map hinj
  have hnotsub : ¬ (∀ x ∈ bigDB.records, x ∈ sweepSnapshot bigDB 0) := by
    intro hall
    have hsp := List.subperm_of_subset hnodup (fun x hx => hall x hx)
    have hle := hsp.length_le
    rw [hbiglen] at hle
    exact absurd (hle.trans hlen) (by decide)
  push_neg at hnotsub
  obtain ⟨r, hrmem, hrnot⟩ := hnotsub
  obtain ⟨i, _, rfl⟩ := List.mem_map.mp (show r ∈ (List.range 1001).map mkBigRec from hrmem)
  have hids : ∀ x ∈ sweepSnapshot bigDB 0, ((mkBigRec i).id == x.id) = false := by
    intro x hx
    obtain ⟨j, _, rfl⟩ :=
      List.mem_map.mp (show x ∈ (List.range 1001).map mkBigRec from hsub x hx)
    by_contra hb
    have hbt : ((mkBigRec i).id == (mkBigRec j).id) = true := by
      cases hcase : ((mkBigRec i).id == (mkBigRec j).id) with
      | false => exact absurd hcase hb
      | true => rfl
    have hij : i = j := beq_iff_eq.mp hbt
    subst hij
    exact hrnot hx
  refine ⟨mkBigRec i, hrmem, rfl, (by decide : (15 : ℚ) ≤ 20), hrnot, ?_⟩
  unfold check_auto_close
  rw [if_pos (show defaultStopConfig.auto_close_enabled = true from rfl)]
  exact sweepFold_preserves defaultStopConfig 0 (sweepSnapshot bigDB 0) ([], bigDB)
    (mkBigRec i) hrmem hids

set_option maxRecDepth 100000 in
/-- C6 (amended): one sweep iterates over the first page of at most 1000
active records (ordered by entry_date descending) — not over all active
records when more than 1000 exist; every snapshot row is an active record of
the store; and a row whose close fails (for any reason and price) is skipped
with the store unchanged, the sweep continuing over the remaining rows. -/
theorem sweep_first_page_and_failure_isolation :
    (∀ db now, (sweepSnapshot db now).length ≤ 1000) ∧
    (∀ db now r, r ∈ sweepSnapshot db now → r ∈ db.records ∧ r.status = "active") ∧
    (∀ cfg now st x rest,
      (∀ rsn cp, (close_position st.2 x.id cp rsn now).1 = false) →
      List.foldl (sweepStep cfg now) st (x :: rest) =
        List.foldl (sweepStep cfg now) st rest) := by
  refine ⟨?_, ?_, ?_⟩
  · intro db now
    unfold sweepSnapshot get_records_page
    rw [List.length_take]
    exact min_le_left _ _
  · intro db now r hr
    unfold sweepSnapshot get_records_page at hr
    have h1 := List.take_subset _ _ hr
    have h2 := List.drop_subset _ _ h1
    rw [mem_sortBy] at h2
    have h3 : r ∈ db.records.filter (fun s => s.status == "active") := h2
    have h4 := List.mem_filter.mp h3
    exact ⟨h4.1, by simpa using h4.2⟩
  · intro cfg now st x rest hfail
    rw [List.foldl_cons]
    have hstep : sweepStep cfg now st x = st := by
      unfold sweepStep
      cases hev : evalCloseReason cfg x.dictProfitPercent x.dictHoldingDays with
      | none => rfl
      | some rsn =>
        have h1 := hfail rsn x.dictCurrentPrice
        have h2 := close_position_false _ _ _ _ _ h1
        simp only [h2]
        simp
    rw [hstep]

/-- A stale snapshot row carrying the id of the already-closed record 7. -/
def staleRow : RecommendationRecord :=
  { baseRec with id := 7, current_price := some 120, profit_percent := 20 }

/-- Witness for the amended C6: the one-record store's snapshot is within the
page bound, and a sweep whose row matches the stop-profit rule but whose
close fails (the stored record is already closed) skips the row and behaves
exactly like the sweep over the remaining rows. -/
theorem sweep_first_page_and_failure_isolation_witness :
    (sweepSnapshot sampleClosedDB 0).length ≤ 1000 ∧
    List.foldl (sweepStep defaultStopConfig 172800) ([], sampleClosedDB) [staleRow] =
      List.foldl (sweepStep defaultStopConfig 172800) ([], sampleClosedDB) [] := by
  have hfail : ∀ rsn cp, (close_position sampleClosedDB 7 cp rsn 172800).1 = false := by
    intro rsn cp
    unfold close_position
    have hf : sampleClosedDB.records.find? (fun r => r.id == 7) = some sampleClosed := rfl
    simp only [hf]
    rw [if_pos (show sampleClosed.status = "closed" from rfl)]
  exact ⟨sweep_first_page_and_failure_isolation.1 sampleClosedDB 0,
         sweep_first_page_and_failure_isolation.2.2 defaultStopConfig 172800
           ([], sampleClosedDB) staleRow [] (fun rsn cp => hfail rsn cp)⟩

/-- The curve loop emits exactly the date keys it is given, in order. -/
theorem curve_loop_dates (recs : List RecommendationRecord) (c : ℚ) (ds : List ℤ) :
    (curve_loop recs c ds).map (fun x => x.1) = ds := by
  induction ds generalizing c with
  | nil => rfl
  | cons d t ih => simp [curve_loop, ih]

/-- Index-wise value of the curve loop: the i-th daily return is the rounded
day mean, the i-th cumulative return is the rounding of the accumulator plus
the sum of the (unrounded) day means up to i, and the i-th count is the day
bucket's size. -/
theorem curve_loop_getD (recs : List RecommendationRecord) (ds : List ℤ) (c : ℚ) (i : ℕ)
    (h : i < ds.length) :
    ((curve_loop recs c ds).map (fun x => x.2.1)).getD i 0 =
      round2 (dayAvg recs (ds.getD i 0)) ∧
    ((curve_loop recs c ds).map (fun x => x.2.2.1)).getD i 0 =
      round2 (c + ((ds.take (i + 1)).map (dayAvg recs)).sum) ∧
    ((curve_loop recs c ds).map (fun x => x.2.2.2)).getD i 0 =
      (dayProfits recs (ds.getD i 0)).length := by
  induction ds generalizing c i with
  | nil => exact absurd h (by simp)
  | cons d t ih =>
    cases i with
    | zero =>
      refine ⟨?_, ?_, ?_⟩ <;> simp [curve_loop]
    | succ j =>
      have hj : j < t.length := by simpa using h
      have ihj := ih (c + dayAvg recs d) j hj
      simp only [curve_loop, List.map_cons, List.getD_cons_succ, List.take_succ_cons,
        List.sum_cons]
      exact ⟨ihj.1, by rw [ihj.2.1, add_assoc], ihj.2.2⟩

/-- The emitted dates are exactly the distinct entry days of the aggregated
records (no gap-filling, no invented dates). -/
theorem curveDates_mem (recs : List RecommendationRecord) (d : ℤ) :
    d ∈ curveDates recs ↔ d ∈ recs.map (fun r => dateOf r.entry_date) := by
  unfold curveDates
  rw [mem_sortBy, List.mem_dedup]

/-- The emitted dates are strictly ascending. -/
theorem curveDates_sorted (recs : List RecommendationRecord) :
    (curveDates recs).Pairwise (· < ·) := by
  have htot : ∀ x y : ℤ, (decide (x ≤ y)) = true ∨ (decide (y ≤ x)) = true := by
    intro x y
    rcases le_total x y with hc | hc
    · exact Or.inl (decide_eq_true hc)
    · exact Or.inr (decide_eq_true hc)
  have htrans : ∀ x y z : ℤ,
      decide (x ≤ y) = true → decide (y ≤ z) = true → decide (x ≤ z) = true := by
    intro x y z h1 h2
    exact decide_eq_true (le_trans (of_decide_eq_true h1) (of_decide_eq_true h2))
  have hle := sortBy_pairwise htot htrans ((recs.map (fun r => dateOf r.entry_date)).dedup)
  have hnd : (curveDates recs).Nodup :=
    (sortBy_perm _ _).nodup_iff.mpr (List.nodup_dedup _)
  exact (hle.and hnd).imp (fun hab => lt_of_le_of_ne (of_decide_eq_true hab.1) hab.2)

/-- C8 (amended): the performance curve emits the distinct entry days in
strictly ascending order with no gap-filling; daily_returns[i] is the
arithmetic mean of that day's profit_percent values rounded to 2 decimals;
cumulative_returns[i] is the rounding of the running sum of the unrounded
day means (not the sum of the rounded daily_returns); daily_count[i] is the
day's record count, always positive. -/
theorem curve_rounded_aggregation (db : DB) (now : ℤ) (period : String) (i : ℕ)
    (h : i < (get_performance_curve db now period).dates.length) :
    (get_performance_curve db now period).dates.Pairwise (· < ·) ∧
    (∀ d : ℤ, d ∈ (get_performance_curve db now period).dates ↔
      d ∈ (curveRecs db now period).map (fun r => dateOf r.entry_date)) ∧
    (get_performance_curve db now period).daily_returns.getD i 0 =
      round2 (dayAvg (curveRecs db now period)
        ((get_performance_curve db now period).dates.getD i 0)) ∧
    (get_performance_curve db now period).cumulative_returns.getD i 0 =
      round2 ((((get_performance_curve db now period).dates.take (i + 1)).map
        (dayAvg (curveRecs db now period))).sum) ∧
    (get_performance_curve db now period).daily_count.getD i 0 =
      (dayProfits (curveRecs db now period)
        ((get_performance_curve db now period).dates.getD i 0)).length ∧
    0 < (get_performance_curve db now period).daily_count.getD i 0 := by
  have hdates : (get_performance_curve db now period).dates =
      curveDates (curveRecs db now period) := curve_loop_dates _ 0 _
  have hlen : i < (curveDates (curveRecs db now period)).length := by
    rw [hdates] at h
    exact h
  have hg := curve_loop_getD (curveRecs db now period)
    (curveDates (curveRecs db now period)) 0 i hlen
  have hcount : (get_performance_curve db now period).daily_count.getD i 0 =
      (dayProfits (curveRecs db now period)
        ((curveDates (curveRecs db now period)).getD i 0)).length := hg.2.2
  refine ⟨?_, ?_, ?_, ?_, ?_, ?_⟩
  · rw [hdates]
    exact curveDates_sorted _
  · intro d
    rw [hdates]
    exact curveDates_mem _ d
  · rw [hdates]
    exact hg.1
  · rw [hdates]
    have hc := hg.2.1
    rw [zero_add] at hc
    exact hc
  · rw [hdates]
    exact hcount
  · have hdmem : (curveDates (curveRecs db now period)).getD i 0 ∈
        curveDates (curveRecs db now period) := by
      rw [List.getD_eq_getElem _ _ hlen]
      exact List.getElem_mem hlen
    obtain ⟨r, hr, hrd⟩ := List.mem_map.mp ((curveDates_mem _ _).mp hdmem)
    have hin : r.profit_percent ∈ dayProfits (curveRecs db now period)
        ((curveDates (curveRecs db now period)).getD i 0) := by
      unfold dayProfits
      exact List.mem_map.mpr ⟨r, List.mem_filter.mpr ⟨hr, by simp [hrd]⟩, rfl⟩
    have hpos := List.length_pos.mpr (List.ne_nil_of_mem hin)
    rw [hcount]
    exact hpos

/-- A record entered at instant 0 with stored profit 1. -/
def c8r1 : RecommendationRecord := { baseRec with id := 11, profit_percent := 1 }

/-- A second same-day record with stored profit 1. -/
def c8r2 : RecommendationRecord := { baseRec with id := 12, profit_percent := 1 }

/-- A third same-day record with stored profit 2. -/
def c8r3 : RecommendationRecord := { baseRec with id := 13, profit_percent := 2 }

/-- A store whose single entry day has profits {1, 1, 2}. -/
def c8DB : DB := ⟨[c8r1, c8r2, c8r3], 14⟩

unseal Rat.mul Rat.add Rat.sub Rat.inv in
/-- C8 counterexample: for one day with profits {1, 1, 2} the code emits the
rounded value 1.33, but the day's arithmetic mean is 4/3 — daily_returns[i]
is not the arithmetic mean the claim states. -/
theorem curve_mean_counterexample :
    (get_performance_curve c8DB 0 "30d").daily_returns = [133/100] ∧
    dayAvg (curveRecs c8DB 0 "30d") 0 = 4/3 ∧
    (133/100 : ℚ) ≠ 4/3 := by
  decide

/-- Day-1 record with profit 10 (spec example D1). -/
def exR1 : RecommendationRecord := { baseRec with id := 21, profit_percent := 10 }

/-- Day-1 record with profit −2 (spec example D1). -/
def exR2 : RecommendationRecord := { baseRec with id := 22, profit_percent := -2 }

/-- Day-2 record with profit 5 (spec example D2). -/
def exR3 : RecommendationRecord :=
  { baseRec with id := 23, entry_date := 86400, profit_percent := 5 }

/-- The spec's curve example store: D1 profits {10, −2}, D2 profit {5}. -/
def exDB : DB := ⟨[exR1, exR2, exR3], 24⟩

unseal Rat.mul Rat.add Rat.sub Rat.inv in
/-- Witness for the amended C8 at the spec's own example: daily_returns
[4.0, 5.0] and cumulative_returns [4.0, 9.0] in ascending date order. -/
theorem curve_rounded_aggregation_witness :
    (get_performance_curve exDB 172800 "30d").dates = [0, 1] ∧
    (get_performance_curve exDB 172800 "30d").daily_returns = [4, 5] ∧
    (get_performance_curve exDB 172800 "30d").cumulative_returns = [4, 9] ∧
    (get_performance_curve exDB 172800 "30d").daily_returns.getD 0 0 =
      round2 (dayAvg (curveRecs exDB 172800 "30d")
        ((get_performance_curve exDB 172800 "30d").dates.getD 0 0)) := by
  refine ⟨by decide, by decide, by decide,
    (curve_rounded_aggregation exDB 172800 "30d" 0 (by decide)).2.2.1⟩

end AIStock
